import Mathlib

/-!
Shallow embedding of `src/calibre/gui2/preferences/server.py` (the content
server preferences panel): the dynamic options-form builder (`Bool`, `Int`,
`Float`, `Text`, `Choices`, `AdvancedTab`), the user-account editor
(`NewUser.accept`, `Users`), and the commit / server-start validation logic
of `ConfigWidget` (`save_changes`, `commit`, `start_server`).

Python values that can appear as option defaults are embedded as `PyVal`
(with rationals standing for Python floats).  The Python builtins the code
relies on (`str.strip`, `str.lower`, string comparison, truthiness,
`int(...)`, `float(...)`) are modelled as executable Lean functions on
`List Char` / `Int` / `Rat`.
-/

namespace CalibreServerPrefs

/-- A Python value as it occurs in option defaults and widget values:
`None`, `bool`, `int` (Python 2 `int`/`long` collapse to `Int`), `float`
(modelled as `Rat`), or `str`. -/
inductive PyVal where
  | none
  | pybool (b : Bool)
  | pyint (n : Int)
  | pyfloat (q : Rat)
  | pystr (s : String)
deriving DecidableEq

/-- Model of Python `str.lower` (per-character lowercasing). -/
def pyLower (s : String) : String := ⟨s.data.map Char.toLower⟩

/-- Strip leading and trailing whitespace from a character list. -/
def stripList (l : List Char) : List Char :=
  ((l.dropWhile Char.isWhitespace).reverse.dropWhile Char.isWhitespace).reverse

/-- Model of Python `str.strip()`. -/
def pyStrip (s : String) : String := ⟨stripList s.data⟩

/-- Lexicographic (code-point) `≤` on character lists: the model of Python
string comparison used by `sorted`. -/
def lexLe : List Char → List Char → Bool
  | [], _ => true
  | _ :: _, [] => false
  | x :: xs, y :: ys =>
      if x < y then true else if y < x then false else lexLe xs ys

/-- Insert `x` into `l` before the first element it compares `≤` to
(ties keep `x` first, matching a stable sort). -/
def insertSorted (le : α → α → Bool) (x : α) : List α → List α
  | [] => [x]
  | y :: ys => if le x y then x :: y :: ys else y :: insertSorted le x ys

/-- Model of Python's builtin `sorted` (a stable comparison sort), as a
structurally recursive insertion sort over the comparison `le`. -/
def pySorted (le : α → α → Bool) : List α → List α
  | [] => []
  | x :: xs => insertSorted le x (pySorted le xs)

/-- Python truthiness `bool(val)`. -/
def PyVal.truthy : PyVal → Bool
  | .none => false
  | .pybool b => b
  | .pyint n => decide (n ≠ 0)
  | .pyfloat q => decide (q ≠ 0)
  | .pystr s => decide (s ≠ "")

/-- Python `int(val)`: identity on ints, `True`/`False` to `1`/`0`,
truncation toward zero on floats, digit parsing on strings (`Option.none`
models the `TypeError`/`ValueError` raise). -/
def pyToInt : PyVal → Option Int
  | .pybool b => some (if b then 1 else 0)
  | .pyint n => some n
  | .pyfloat q => some (q.num.tdiv q.den)
  | .pystr s => s.toInt?
  | .none => Option.none

/-- Python `float(val)` on the values the form builder can feed a numeric
widget; string parsing is left out (the dispatch never sends a string to a
`Float` widget), `Option.none` models a raise. -/
def pyToFloat : PyVal → Option Rat
  | .pybool b => some (if b then 1 else 0)
  | .pyint n => some (n : Rat)
  | .pyfloat q => some q
  | .pystr _ => Option.none
  | .none => Option.none

/-! ## The form widgets (`Bool`, `Int`, `Float`, `Text`, `Choices`) -/

/-- `Bool(QCheckBox)`: state is the checked flag. -/
structure BoolW where
  checked : Bool
deriving DecidableEq

/-- A fresh `QCheckBox` is unchecked. -/
def BoolW.init : BoolW := ⟨false⟩

/-- `Bool.set`: `self.setChecked(bool(val))`. -/
def BoolW.set (_ : BoolW) (v : PyVal) : BoolW := ⟨v.truthy⟩

/-- `Bool.get`: `self.isChecked()`. -/
def BoolW.get (w : BoolW) : PyVal := .pybool w.checked

/-- `Int(QSpinBox)`: value plus the spin-box range. -/
structure IntW where
  lo : Int
  hi : Int
  value : Int
deriving DecidableEq

/-- `Int.__init__` does `self.setRange(0, 10000)`; a fresh spin box shows 0. -/
def IntW.init : IntW := { lo := 0, hi := 10000, value := 0 }

/-- `Int.set`: `self.setValue(int(val))`; `QSpinBox.setValue` clamps to the
range. -/
def IntW.set (w : IntW) (v : PyVal) : Option IntW :=
  (pyToInt v).map fun n => { w with value := max w.lo (min w.hi n) }

/-- `Int.get`: `self.value()`. -/
def IntW.get (w : IntW) : PyVal := .pyint w.value

/-- `Float(QDoubleSpinBox)`: value plus range and displayed decimals. -/
structure FloatW where
  lo : Rat
  hi : Rat
  decimals : Nat
  value : Rat
deriving DecidableEq

/-- `Float.__init__` does `self.setRange(0, 10000)` and `self.setDecimals(1)`. -/
def FloatW.init : FloatW := { lo := 0, hi := 10000, decimals := 1, value := 0 }

/-- Round a rational to `d` decimal places (what `QDoubleSpinBox` does to a
value set on it). -/
def roundToDecimals (d : Nat) (q : Rat) : Rat :=
  ((round (q * (10 : Rat) ^ d) : Int) : Rat) / (10 : Rat) ^ d

/-- `Float.set`: `self.setValue(float(val))`; `QDoubleSpinBox.setValue`
clamps to the range and rounds to `decimals` places. -/
def FloatW.set (w : FloatW) (v : PyVal) : Option FloatW :=
  (pyToFloat v).map fun q =>
    { w with value := roundToDecimals w.decimals (max w.lo (min w.hi q)) }

/-- `Float.get`: `self.value()`. -/
def FloatW.get (w : FloatW) : PyVal := .pyfloat w.value

/-- `Text(QLineEdit)`: state is the line-edit text. -/
structure TextW where
  text : String
deriving DecidableEq

/-- A fresh `QLineEdit` is empty. -/
def TextW.init : TextW := ⟨""⟩

/-- The string written by `Text.set`, i.e. `type(u'')(val or '')`: falsy
values (`None`, `''`, `False`, `0`) become the empty string.  The numeric
branches approximate Python `str(...)`; the form builder never routes a
numeric default to a `Text` widget. -/
def textOfVal : PyVal → String
  | .pystr s => s
  | .none => ""
  | .pybool b => if b then "True" else ""
  | .pyint n => if n = 0 then "" else toString n
  | .pyfloat q => if q = 0 then "" else toString q

/-- `Text.set`: `self.setText(type(u'')(val or ''))`. -/
def TextW.set (_ : TextW) (v : PyVal) : TextW := ⟨textOfVal v⟩

/-- `Text.get`: `self.text().strip() or None`. -/
def TextW.get (w : TextW) : PyVal :=
  if pyStrip w.text = "" then .none else .pystr (pyStrip w.text)

/-- `Choices(QComboBox)`: the descriptor's choice strings (added in order
by `addItem`) plus the current index. -/
structure ChoicesW where
  choices : List String
  currentIndex : Nat
deriving DecidableEq

/-- `Choices.__init__`: all choices added; the first added item becomes
current. -/
def ChoicesW.init (cs : List String) : ChoicesW := ⟨cs, 0⟩

/-- Index of the first occurrence of `v` (what `setCurrentText` selects for
a non-editable combo box). -/
def firstIndexOf (v : String) : List String → Nat
  | [] => 0
  | x :: xs => if x = v then 0 else firstIndexOf v xs + 1

/-- `Choices.set`: `if val in self.choices: self.setCurrentText(val) else:
self.setCurrentIndex(0)`. -/
def ChoicesW.setStr (w : ChoicesW) (v : String) : ChoicesW :=
  if v ∈ w.choices then { w with currentIndex := firstIndexOf v w.choices }
  else { w with currentIndex := 0 }

/-- `Choices.get`: `self.currentText()` (empty for an empty combo box). -/
def ChoicesW.get (w : ChoicesW) : String := w.choices.getD w.currentIndex ""

/-- `Choices.set` fed a generic settings value: a non-string value is never
`in` a list of strings, so it falls to `setCurrentIndex(0)`. -/
def ChoicesW.set (w : ChoicesW) (v : PyVal) : ChoicesW :=
  match v with
  | .pystr s => w.setStr s
  | _ => { w with currentIndex := 0 }

/-! ## The option descriptor and the form builder (`AdvancedTab.__init__`) -/

/-- An option descriptor from `calibre.srv.opts.options`: name, default,
short/long documentation, optional choice list (`[]` models both an absent
and an empty choice tuple — both are falsy in the source's `if opt.choices`). -/
structure Opt where
  name : String
  default : PyVal
  shortdoc : String
  longdoc : Option String := Option.none
  choices : List String := []
deriving DecidableEq

/-- The five widget kinds the form builder can produce. -/
inductive WidgetKind where
  | choices
  | bool
  | int
  | float
  | text
deriving DecidableEq

/-- A built form widget (any of the five classes). -/
inductive Widget where
  | wchoices (w : ChoicesW)
  | wbool (w : BoolW)
  | wint (w : IntW)
  | wfloat (w : FloatW)
  | wtext (w : TextW)
deriving DecidableEq

def Widget.kind : Widget → WidgetKind
  | .wchoices _ => .choices
  | .wbool _ => .bool
  | .wint _ => .int
  | .wfloat _ => .float
  | .wtext _ => .text

/-- The widget built for one option in `AdvancedTab.__init__`:
`if opt.choices: Choices / elif isinstance(opt.default, bool): Bool /
elif isinstance(opt.default, (int, long)): Int /
elif isinstance(opt.default, float): Float / else: Text`. -/
def mkWidget (opt : Opt) : Widget :=
  if opt.choices ≠ [] then .wchoices (ChoicesW.init opt.choices)
  else match opt.default with
    | .pybool _ => .wbool BoolW.init
    | .pyint _ => .wint IntW.init
    | .pyfloat _ => .wfloat FloatW.init
    | _ => .wtext TextW.init

/-- `set` on whichever widget was built (`Option.none` models a raise from
`int(...)`/`float(...)` on an unconvertible value). -/
def Widget.set : Widget → PyVal → Option Widget
  | .wchoices w, v => some (.wchoices (w.set v))
  | .wbool w, v => some (.wbool (w.set v))
  | .wint w, v => (w.set v).map .wint
  | .wfloat w, v => (w.set v).map .wfloat
  | .wtext w, v => some (.wtext (w.set v))

/-- `get` on whichever widget was built. -/
def Widget.get : Widget → PyVal
  | .wchoices w => .pystr w.get
  | .wbool w => w.get
  | .wint w => w.get
  | .wfloat w => w.get
  | .wtext w => w.get

/-- The options `AdvancedTab.__init__` skips: they are rendered specially
elsewhere. -/
def advancedExcluded : List String :=
  ["auth", "port", "allow_socket_preallocation", "userdb"]

/-- The sort key of `AdvancedTab.__init__`:
`sorted(options, key=lambda n: options[n].shortdoc.lower())`. -/
def shortdocLe (a b : Opt) : Bool :=
  lexLe (pyLower a.shortdoc).data (pyLower b.shortdoc).data

/-- The labelled control produced for one option (option name and default
are attached by `init_opt`; the label row uses `opt.shortdoc`). -/
structure Control where
  name : String
  kind : WidgetKind
  shortdoc : String
deriving DecidableEq

def mkControl (o : Opt) : Control := ⟨o.name, (mkWidget o).kind, o.shortdoc⟩

/-- The list of controls `AdvancedTab.__init__` builds from the registry:
iterate the options sorted case-insensitively by `shortdoc`, skip the
excluded names, build one widget per remaining option. -/
def buildAdvancedTab (registry : List Opt) : List Control :=
  ((pySorted shortdocLe registry).filter
      (fun o => decide (o.name ∉ advancedExcluded))).map mkControl

/-! ## The user-account editor (`NewUser`, `User`, `Users`) -/

/-- Modelled from the spec: `create_user_data(password)` from the external
user-manager collaborator produces the stored user record, "a record
containing at least a password-derived field"; the source reads the record's
`pw` key back (`user_data[username]['pw']`). -/
structure UserRecord where
  pw : String
deriving DecidableEq

def create_user_data (pw : String) : UserRecord := ⟨pw⟩

/-- Outcome of one press of OK in the `NewUser` dialog (each rejection is an
`error_dialog` that leaves the dialog open). -/
inductive AcceptOutcome where
  | accepted
  | rejectedEmptyUsername
  | rejectedDuplicateUsername
  | rejectedInvalidUsername (err : String)
  | rejectedPasswordMismatch
  | rejectedEmptyPassword
  | rejectedInvalidPassword (err : String)
deriving DecidableEq

/-- `NewUser.accept` in add mode (username field editable): the username is
the stripped field text; reject it when empty, already a key of `user_data`,
or rejected by the external `validate_username`; then reject mismatched or
empty passwords and passwords rejected by the external `validate_password`.
The two validators are parameters (they live outside this file's source). -/
def newUserAccept (vu vp : String → Option String)
    (user_data : List (String × UserRecord)) (uwText p1 p2 : String) :
    AcceptOutcome :=
  if pyStrip uwText = "" then .rejectedEmptyUsername
  else if (user_data.lookup (pyStrip uwText)).isSome then .rejectedDuplicateUsername
  else
    match vu (pyStrip uwText) with
    | some err => .rejectedInvalidUsername err
    | Option.none =>
      if p1 ≠ p2 then .rejectedPasswordMismatch
      else if p1 = "" then .rejectedEmptyPassword
      else
        match vp p1 with
        | some err => .rejectedInvalidPassword err
        | Option.none => .accepted

/-- The `Users` widget: the working user mapping (a Python dict, embedded as
an association list in dict order), the `QListWidget` rows, the current row,
the username shown in the detail pane (`User.show_user`), the enablement of
the change-password button, and the session dirty flag (`changed_signal`). -/
structure UsersTab where
  user_data : List (String × UserRecord)
  listItems : List String
  currentRow : Option Nat
  displayedUser : Option String
  cpbEnabled : Bool
  dirty : Bool
deriving DecidableEq

/-- `Users.display_user_data` / `User.show_user`: shows the username and
enables the change-password button exactly when a username is given. -/
def UsersTab.displayUserData (st : UsersTab) (username : Option String) :
    UsersTab :=
  { st with displayedUser := username, cpbEnabled := username.isSome }

/-- The text of `self.user_list.currentItem()` (`Option.none` when no row is
current). -/
def UsersTab.currentItem (st : UsersTab) : Option String :=
  st.currentRow.bind fun r => st.listItems.get? r

/-- `Users.current_item_changed`: take the current item's text, normalize it
to `Option.none` when there is no current item or the text is not a key of
`user_data`, and show the result. -/
def UsersTab.currentItemChanged (st : UsersTab) : UsersTab :=
  let username :=
    match st.currentItem with
    | Option.none => Option.none
    | some t => if (st.user_data.lookup t).isSome then some t else Option.none
  st.displayUserData username

/-- `Users.genesis`: load the working mapping from the external user
manager, fill the list with the usernames sorted by the external collation
key (`primary_sort_key`, supplied here as the comparison `keyLe`), make row
0 current (no row is current when the list is empty), and run
`current_item_changed`. -/
def usersGenesis (keyLe : String → String → Bool)
    (user_data : List (String × UserRecord)) : UsersTab :=
  let items := pySorted keyLe (user_data.map Prod.fst)
  UsersTab.currentItemChanged
    { user_data := user_data
      listItems := items
      currentRow := if items.isEmpty then Option.none else some 0
      displayedUser := Option.none
      cpbEnabled := false
      dirty := false }

/-- `Users.add_user`: run the `NewUser` dialog; when it accepts, store
`create_user_data(password)` under the stripped username (a fresh dict key
goes to the end of the dict), insert the username at row 0 of the list, make
row 0 current, show the new user, and emit `changed_signal`.  When the
dialog does not accept, nothing changes. -/
def UsersTab.addUser (vu vp : String → Option String) (st : UsersTab)
    (uwText p1 p2 : String) : UsersTab :=
  match newUserAccept vu vp st.user_data uwText p1 p2 with
  | .accepted =>
      UsersTab.displayUserData
        { st with
            user_data := st.user_data ++ [(pyStrip uwText, create_user_data p1)]
            listItems := pyStrip uwText :: st.listItems
            currentRow := some 0
            dirty := true }
        (some (pyStrip uwText))
  | _ => st

/-! ## The panel (`ConfigWidget`): `save_changes`, `commit`, `start_server` -/

/-- The three tabs of the panel's `QTabWidget`. -/
inductive PanelTab where
  | mainTab
  | usersTab
  | advancedTab
deriving DecidableEq

/-- The settings snapshot gathered from all tabs in `save_changes`
(`settings.update(tab.settings)` over the tabs): the main tab contributes
`auth` and `port`, the advanced tab contributes everything else. -/
structure Settings where
  auth : Bool
  port : Int
  advanced : List (String × PyVal)
deriving DecidableEq

/-- The panel state relevant to `save_changes` / `commit` / `start_server`:
the gathered snapshot, the users tab's working mapping, the two external
stores (`change_settings` target and `UserManager().user_data`), the current
tab, the dialog flags, and whether a start request has been issued to the
external server object. -/
structure Panel where
  settings : Settings
  users : List (String × UserRecord)
  configStore : Settings
  userStore : List (String × UserRecord)
  currentTab : PanelTab
  errorShown : Bool
  restartWarned : Bool
  serverStartIssued : Bool
deriving DecidableEq

/-- `ConfigWidget.save_changes`: if the snapshot has `auth` set and the
working user mapping is empty, show the "No users specified" error dialog,
switch to the user-accounts tab, and return `False` without touching either
store; otherwise persist the snapshot via `change_settings(**settings)` and
the mapping via `UserManager().user_data = users`, and return `True`. -/
def Panel.save_changes (p : Panel) : Bool × Panel :=
  if p.settings.auth && p.users.isEmpty then
    (false, { p with errorShown := true, currentTab := PanelTab.usersTab })
  else
    (true, { p with configStore := p.settings, userStore := p.users })

/-- The `AbortCommit` exception raised by `ConfigWidget.commit`. -/
inductive AbortCommit where
  | mk
deriving DecidableEq

/-- `ConfigWidget.commit`: `if not self.save_changes(): raise AbortCommit()`;
on success show the "Restart needed" warning dialog and return `False`
(the change is not applied until the server is restarted). -/
def Panel.commit (p : Panel) : Panel × Except AbortCommit Bool :=
  let r := p.save_changes
  if r.1 then ({ r.2 with restartWarned := true }, Except.ok false)
  else (r.2, Except.error AbortCommit.mk)

/-- `ConfigWidget.start_server`: `if not self.save_changes(): return`; only
when the save succeeds is `gui.start_content_server` called.  The polling
loop and error dialog that follow the issued request only observe the
external server object and are not modelled. -/
def Panel.start_server (p : Panel) : Panel :=
  let r := p.save_changes
  if r.1 then { r.2 with serverStartIssued := true } else r.2

/-! ## Side conditions and concrete instances used by the theorems -/

/-- Defaults whose `set`/`get` round-trip is exact on the generated widget:
any boolean (and `None`); an integer inside the spin-box range `0–10000`; a
float inside `0–10000` that is representable with one decimal place; a
non-empty string with no surrounding whitespace. -/
def roundTrippableDefault : PyVal → Bool
  | PyVal.pybool _ => true
  | PyVal.pyint n => decide (0 ≤ n) && decide (n ≤ 10000)
  | PyVal.pyfloat q => decide (0 ≤ q) && decide (q ≤ 10000) && decide ((q * 10).den = 1)
  | PyVal.pystr s => decide (pyStrip s = s) && decide (s ≠ "")
  | PyVal.none => true

/-- The `compress_min_size` option of the spec's scenario: integer default 0. -/
def compressOpt : Opt :=
  { name := "compress_min_size", default := PyVal.pyint 0
    shortdoc := "Compress min size" }

/-- The `url_prefix` option of the spec's scenario: string default `""`. -/
def urlPrefixOpt : Opt :=
  { name := "url_prefix", default := PyVal.pystr "", shortdoc := "Url prefix" }

/-- A username validator that accepts everything (concrete stand-in for the
external `validate_username`). -/
def vuOk : String → Option String := fun _ => Option.none

/-- A password validator that accepts everything (concrete stand-in for the
external `validate_password`). -/
def vpOk : String → Option String := fun _ => Option.none

/-- A concrete collation comparison (code-point order), standing in for the
order induced by the external `primary_sort_key`. -/
def collationLe : String → String → Bool := fun a b => lexLe a.data b.data

/-- A one-user working mapping. -/
def aliceOnly : List (String × UserRecord) := [("alice", ⟨"x"⟩)]

/-- The users tab freshly loaded from `aliceOnly`. -/
def aliceTab : UsersTab := usersGenesis collationLe aliceOnly

/-- A users-tab state whose current list item (`"ghost"`) is not a key of
the working mapping. -/
def ghostTab : UsersTab :=
  { user_data := aliceOnly, listItems := ["ghost"], currentRow := some 0
    displayedUser := some "ghost", cpbEnabled := true, dirty := false }

/-- A panel snapshot with `auth` on and no users. -/
def basePanel : Panel :=
  { settings := { auth := true, port := 8080, advanced := [] }
    users := []
    configStore := { auth := false, port := 80, advanced := [] }
    userStore := []
    currentTab := PanelTab.mainTab
    errorShown := false
    restartWarned := false
    serverStartIssued := false }

/-- The same snapshot with one user present. -/
def onePanel : Panel := { basePanel with users := [("u", ⟨"p"⟩)] }

/-! ## Order lemmas for `lexLe` and `pySorted` -/

theorem lexLe_total (a b : List Char) : (lexLe a b || lexLe b a) = true := by
  induction a generalizing b with
  | nil => simp [lexLe]
  | cons x xs ih =>
    cases b with
    | nil => simp [lexLe]
    | cons y ys =>
      by_cases hxy : x < y
      · simp [lexLe, hxy]
      · by_cases hyx : y < x
        · simp [lexLe, hxy, hyx]
        · simpa [lexLe, hxy, hyx] using ih ys

theorem lexLe_trans {a b c : List Char} (hab : lexLe a b = true)
    (hbc : lexLe b c = true) : lexLe a c = true := by
  induction a generalizing b c with
  | nil => simp [lexLe]
  | cons x xs ih =>
    cases b with
    | nil => simp [lexLe] at hab
    | cons y ys =>
      cases c with
      | nil => simp [lexLe] at hbc
      | cons z zs =>
        by_cases hxy : x < y
        · by_cases hyz : y < z
          · simp [lexLe, lt_trans hxy hyz]
          · by_cases hzy : z < y
            · simp [lexLe, hyz, hzy] at hbc
            · have hyz' : y = z := le_antisymm (not_lt.mp hzy) (not_lt.mp hyz)
              simp [lexLe, hyz' ▸ hxy]
        · by_cases hyx : y < x
          · simp [lexLe, hxy, hyx] at hab
          · have hxy' : x = y := le_antisymm (not_lt.mp hyx) (not_lt.mp hxy)
            subst hxy'
            simp only [lexLe, hxy, if_neg, if_false] at hab
            by_cases hyz : x < z
            · simp [lexLe, hyz]
            · by_cases hzy : z < x
              · simp [lexLe, hyz, hzy] at hbc
              · simp only [lexLe, hyz, hzy, if_false] at hbc ⊢
                exact ih hab hbc

theorem insertSorted_perm (le : α → α → Bool) (x : α) (l : List α) :
    (insertSorted le x l).Perm (x :: l) := by
  induction l with
  | nil => exact List.Perm.refl _
  | cons y ys ih =>
    by_cases h : le x y
    · simp [insertSorted, h]
    · simp only [insertSorted, h, if_false, Bool.false_eq_true]
      exact (ih.cons y).trans (List.Perm.swap x y ys)

theorem pySorted_perm (le : α → α → Bool) (l : List α) :
    (pySorted le l).Perm l := by
  induction l with
  | nil => exact List.Perm.refl _
  | cons x xs ih => exact (insertSorted_perm le x (pySorted le xs)).trans (ih.cons x)

theorem pairwise_insertSorted (le : α → α → Bool)
    (htrans : ∀ a b c, le a b = true → le b c = true → le a c = true)
    (htotal : ∀ a b, (le a b || le b a) = true) (x : α) {l : List α}
    (hl : l.Pairwise (fun a b => le a b = true)) :
    (insertSorted le x l).Pairwise (fun a b => le a b = true) := by
  induction l with
  | nil => simp [insertSorted]
  | cons y ys ih =>
    rcases List.pairwise_cons.mp hl with ⟨hy, hys⟩
    by_cases h : le x y = true
    · simp only [insertSorted, h, if_true]
      refine List.pairwise_cons.mpr ⟨?_, hl⟩
      intro z hz
      rcases List.mem_cons.mp hz with hz | hz
      · exact hz ▸ h
      · exact htrans x y z h (hy z hz)
    · have hyx : le y x = true := by
        rcases Bool.or_eq_true_iff.mp (htotal x y) with h' | h'
        · exact absurd h' h
        · exact h'
      simp only [insertSorted, h, if_false, Bool.false_eq_true]
      refine List.pairwise_cons.mpr ⟨?_, ih hys⟩
      intro z hz
      have hz' : z ∈ x :: ys := (insertSorted_perm le x ys).mem_iff.mp hz
      rcases List.mem_cons.mp hz' with hz' | hz'
      · exact hz' ▸ hyx
      · exact hy z hz'

theorem pairwise_pySorted (le : α → α → Bool)
    (htrans : ∀ a b c, le a b = true → le b c = true → le a c = true)
    (htotal : ∀ a b, (le a b || le b a) = true) (l : List α) :
    (pySorted le l).Pairwise (fun a b => le a b = true) := by
  induction l with
  | nil => simp [pySorted]
  | cons x xs ih => exact pairwise_insertSorted le htrans htotal x ih

theorem getD_firstIndexOf {v : String} {l : List String} (h : v ∈ l)
    (d : String) : l.getD (firstIndexOf v l) d = v := by
  induction l with
  | nil => cases h
  | cons x xs ih =>
    by_cases hx : x = v
    · simp [firstIndexOf, hx]
    · have hv : v ∈ xs := by
        rcases List.mem_cons.mp h with h' | h'
        · exact absurd h'.symm hx
        · exact h'
      simpa [firstIndexOf, hx, List.getD] using ih hv

theorem shortdocLe_trans (a b c : Opt) (hab : shortdocLe a b = true)
    (hbc : shortdocLe b c = true) : shortdocLe a c = true :=
  lexLe_trans hab hbc

theorem shortdocLe_total (a b : Opt) : (shortdocLe a b || shortdocLe b a) = true :=
  lexLe_total _ _

/-! ## Claim theorems -/

/-- C1: for every option descriptor, the form builder selects the widget
kind first-match-wins: a non-empty choice list gives the enumerated-choice
control; otherwise a boolean default the toggle; otherwise an integer
default the bounded numeric control with range fixed 0–10000; otherwise a
float default the bounded decimal control with range 0–10000 and one
decimal place; otherwise the free-text control. -/
theorem advanced_widget_kind_selection (opt : Opt) :
    ((mkWidget opt).kind =
      if opt.choices ≠ [] then WidgetKind.choices
      else match opt.default with
        | PyVal.pybool _ => WidgetKind.bool
        | PyVal.pyint _ => WidgetKind.int
        | PyVal.pyfloat _ => WidgetKind.float
        | _ => WidgetKind.text)
    ∧ (∀ w, mkWidget opt = Widget.wint w → w.lo = 0 ∧ w.hi = 10000)
    ∧ (∀ w, mkWidget opt = Widget.wfloat w →
        w.lo = 0 ∧ w.hi = 10000 ∧ w.decimals = 1) := by
  refine ⟨?_, ?_, ?_⟩ <;>
  · unfold mkWidget
    by_cases h : opt.choices = [] <;>
      cases opt.default <;>
        simp [h, Widget.kind, IntW.init, FloatW.init]

/-- Witness for C1 at the integer-default option `compress_min_size`. -/
theorem advanced_widget_kind_selection_witness :
    IntW.init.lo = 0 ∧ IntW.init.hi = 10000 :=
  (advanced_widget_kind_selection compressOpt).2.1 IntW.init (by decide)

/-- C2 as stated is false: the claim asserts `get()` after `set(default)`
returns the default unchanged for every choice-free descriptor, but for a
free-text option whose default is the empty string (the spec's own
`url_prefix`), `Text.get` is `self.text().strip() or None`, so the
round-trip yields `None`, not `""`. -/
theorem set_default_roundtrip_counterexample :
    urlPrefixOpt.choices = []
    ∧ ((mkWidget urlPrefixOpt).set urlPrefixOpt.default).map Widget.get
        = some PyVal.none
    ∧ urlPrefixOpt.default ≠ PyVal.none := by decide

/-- C2 amended: for every option descriptor without a choice list whose
default survives the widget's own normalization — any boolean or `None`; an
integer in the spin-box range 0–10000; a float in 0–10000 exactly
representable with one decimal place; a non-empty string without
surrounding whitespace — `get()` after `set(default)` returns the default
unchanged. -/
theorem set_default_roundtrip (opt : Opt) (hch : opt.choices = [])
    (hd : roundTrippableDefault opt.default = true) :
    ((mkWidget opt).set opt.default).map Widget.get = some opt.default := by
  have hnotch : ¬ opt.choices ≠ [] := by simp [hch]
  unfold mkWidget
  rw [if_neg hnotch]
  cases hdef : opt.default with
  | none =>
      simp [Widget.set, TextW.set, textOfVal, Widget.get, TextW.get, TextW.init,
        pyStrip, stripList]
  | pybool b =>
      simp [Widget.set, BoolW.set, Widget.get, BoolW.get, PyVal.truthy, BoolW.init]
  | pyint n =>
      rw [hdef] at hd
      simp only [roundTrippableDefault, Bool.and_eq_true, decide_eq_true_eq] at hd
      simp only [Widget.set, IntW.set, pyToInt, Option.map_some', Widget.get,
        IntW.get, IntW.init, Option.map_some']
      congr 2
      omega
  | pyfloat q =>
      rw [hdef] at hd
      simp only [roundTrippableDefault, Bool.and_eq_true, decide_eq_true_eq] at hd
      obtain ⟨⟨h0, h1⟩, hden⟩ := hd
      have hq10 : ((q * 10).num : Rat) = q * 10 := by
        conv_rhs => rw [← Rat.num_div_den (q * 10)]
        rw [hden, Nat.cast_one, div_one]
      simp only [Widget.set, FloatW.set, pyToFloat, Option.map_some', Widget.get,
        FloatW.get, FloatW.init, Option.map_some', roundToDecimals]
      congr 2
      rw [min_eq_right h1, max_eq_right h0, pow_one, ← hq10, round_intCast, hq10]
      exact mul_div_cancel_right₀ q (by norm_num)
  | pystr s =>
      rw [hdef] at hd
      simp only [roundTrippableDefault, Bool.and_eq_true, decide_eq_true_eq] at hd
      simp [Widget.set, TextW.set, textOfVal, Widget.get, TextW.get, TextW.init,
        hd.1, hd.2]

/-- Witness for C2 (amended) at the integer-default option
`compress_min_size`. -/
theorem set_default_roundtrip_witness :
    ((mkWidget compressOpt).set compressOpt.default).map Widget.get
      = some compressOpt.default :=
  set_default_roundtrip compressOpt rfl (by decide)

/-- C3: with `auth` on, `save_changes` rejects an empty user mapping and on
that rejection writes neither the configuration store nor the user manager
(no partial persistence); with at least one user present the same snapshot
is accepted and both stores are written. -/
theorem save_changes_auth_validation (p : Panel) (hauth : p.settings.auth = true) :
    (p.users = [] →
      (Panel.save_changes p).1 = false
      ∧ (Panel.save_changes p).2.configStore = p.configStore
      ∧ (Panel.save_changes p).2.userStore = p.userStore)
    ∧ (p.users ≠ [] →
      (Panel.save_changes p).1 = true
      ∧ (Panel.save_changes p).2.configStore = p.settings
      ∧ (Panel.save_changes p).2.userStore = p.users) := by
  constructor
  · intro hu
    simp [Panel.save_changes, hauth, hu]
  · intro hu
    simp [Panel.save_changes, hauth, List.isEmpty_iff, hu]

/-- Witness for C3: the rejected empty-user panel and the accepted one-user
panel. -/
theorem save_changes_auth_validation_witness :
    (Panel.save_changes basePanel).1 = false
    ∧ (Panel.save_changes onePanel).1 = true :=
  ⟨((save_changes_auth_validation basePanel rfl).1 rfl).1,
   ((save_changes_auth_validation onePanel rfl).2 (by decide)).1⟩

/-- C4: `Choices.set` with a value outside the (non-empty) choice list does
not fail — it leaves the combo box on the first listed choice — while a
value in the list is selected exactly; the choice list itself is never
altered. -/
theorem choices_set_fallback (w : ChoicesW) (v : String) (h : w.choices ≠ []) :
    ((w.setStr v).choices = w.choices)
    ∧ (v ∉ w.choices → (w.setStr v).get = w.choices.headD "")
    ∧ (v ∈ w.choices → (w.setStr v).get = v) := by
  refine ⟨?_, ?_, ?_⟩
  · unfold ChoicesW.setStr
    split <;> rfl
  · intro hv
    simp only [ChoicesW.setStr, if_neg hv, ChoicesW.get]
    cases hc : w.choices with
    | nil => exact absurd hc h
    | cons a as => rfl
  · intro hv
    simp only [ChoicesW.setStr, if_pos hv, ChoicesW.get]
    exact getD_firstIndexOf hv ""

/-- Witness for C4 on the two-choice combo box `["a", "b"]`. -/
theorem choices_set_fallback_witness :
    ((ChoicesW.init ["a", "b"]).setStr "zz").get = "a"
    ∧ ((ChoicesW.init ["a", "b"]).setStr "b").get = "b" := by
  constructor
  · have h := (choices_set_fallback (ChoicesW.init ["a", "b"]) "zz"
      (by decide)).2.1 (by decide)
    simpa using h
  · exact (choices_set_fallback (ChoicesW.init ["a", "b"]) "b"
      (by decide)).2.2 (by decide)

/-- C5: the advanced form builder produces exactly one control per registry
option outside the exclusion set (as multisets, the built controls are the
non-excluded options' controls), and the built list is ordered by the
case-insensitive comparison of the options' short labels. -/
theorem advanced_tab_controls (registry : List Opt) :
    (buildAdvancedTab registry).Perm
        ((registry.filter fun o => decide (o.name ∉ advancedExcluded)).map mkControl)
    ∧ (buildAdvancedTab registry).Pairwise
        (fun c c' => lexLe (pyLower c.shortdoc).data (pyLower c'.shortdoc).data = true) := by
  constructor
  · exact ((pySorted_perm shortdocLe registry).filter _).map mkControl
  · have hs := pairwise_pySorted shortdocLe shortdocLe_trans shortdocLe_total registry
    have hf := hs.filter (fun o => decide (o.name ∉ advancedExcluded))
    unfold buildAdvancedTab
    rw [List.pairwise_map]
    exact hf.imp (fun hab => hab)

/-- `NewUser.accept` accepts exactly when every validation passes. -/
theorem newUserAccept_eq_accepted_iff (vu vp : String → Option String)
    (ud : List (String × UserRecord)) (uwText p1 p2 : String) :
    newUserAccept vu vp ud uwText p1 p2 = AcceptOutcome.accepted ↔
      pyStrip uwText ≠ ""
      ∧ ud.lookup (pyStrip uwText) = Option.none
      ∧ vu (pyStrip uwText) = Option.none
      ∧ p1 = p2 ∧ p1 ≠ ""
      ∧ vp p1 = Option.none := by
  unfold newUserAccept
  by_cases h1 : pyStrip uwText = ""
  · simp [h1]
  · rw [if_neg h1]
    cases hl : ud.lookup (pyStrip uwText) with
    | some e => simp [h1, hl]
    | none =>
      simp only [hl, Option.isSome_none, Bool.false_eq_true, if_false]
      cases hv : vu (pyStrip uwText) with
      | some e => simp [h1, hv]
      | none =>
        by_cases hp : p1 = p2
        · subst hp
          by_cases he : p1 = ""
          · simp [h1, he]
          · cases hw : vp p1 with
            | some e => simp [h1, he, hw]
            | none => simp [h1, he, hw]
        · simp [h1, hp]

/-- C6: adding a user leaves the working mapping (and everything else)
untouched whenever the dialog rejects, and the dialog rejects whenever the
username is empty, already present, or refused by the external username
validator, or the passwords differ, are empty, or are refused by the
external password validator; on acceptance the record is appended to the
mapping, the new user becomes the current and displayed one, and the
session is marked dirty. -/
theorem add_user_validation (vu vp : String → Option String) (st : UsersTab)
    (uwText p1 p2 : String) :
    (newUserAccept vu vp st.user_data uwText p1 p2 ≠ AcceptOutcome.accepted →
        UsersTab.addUser vu vp st uwText p1 p2 = st)
    ∧ ((pyStrip uwText = "" ∨ st.user_data.lookup (pyStrip uwText) ≠ Option.none
          ∨ vu (pyStrip uwText) ≠ Option.none ∨ p1 ≠ p2 ∨ p1 = ""
          ∨ vp p1 ≠ Option.none) →
        newUserAccept vu vp st.user_data uwText p1 p2 ≠ AcceptOutcome.accepted)
    ∧ (newUserAccept vu vp st.user_data uwText p1 p2 = AcceptOutcome.accepted →
        (UsersTab.addUser vu vp st uwText p1 p2).user_data
            = st.user_data ++ [(pyStrip uwText, create_user_data p1)]
        ∧ (UsersTab.addUser vu vp st uwText p1 p2).currentItem
            = some (pyStrip uwText)
        ∧ (UsersTab.addUser vu vp st uwText p1 p2).displayedUser
            = some (pyStrip uwText)
        ∧ (UsersTab.addUser vu vp st uwText p1 p2).dirty = true) := by
  refine ⟨?_, ?_, ?_⟩
  · intro h
    unfold UsersTab.addUser
    cases hacc : newUserAccept vu vp st.user_data uwText p1 p2 <;>
      first
        | rfl
        | exact absurd hacc h
  · intro hbad hacc
    rw [newUserAccept_eq_accepted_iff] at hacc
    obtain ⟨a1, a2, a3, a4, a5, a6⟩ := hacc
    rcases hbad with h | h | h | h | h | h
    · exact a1 h
    · exact h a2
    · exact h a3
    · exact h a4
    · exact a5 h
    · exact h a6
  · intro hacc
    simp [UsersTab.addUser, hacc, UsersTab.displayUserData, UsersTab.currentItem]

/-- Witness for C6: adding `"bob"` to the one-user tab succeeds and appends
the record; adding a duplicate `"alice"` or mismatched passwords changes
nothing. -/
theorem add_user_validation_witness :
    (UsersTab.addUser vuOk vpOk aliceTab "bob" "p" "p").user_data
        = aliceTab.user_data ++ [(pyStrip "bob", create_user_data "p")]
    ∧ (UsersTab.addUser vuOk vpOk aliceTab "bob" "p" "p").dirty = true
    ∧ UsersTab.addUser vuOk vpOk aliceTab "alice" "p" "p" = aliceTab
    ∧ UsersTab.addUser vuOk vpOk aliceTab "carol" "p" "q" = aliceTab := by
  have hok := (add_user_validation vuOk vpOk aliceTab "bob" "p" "p").2.2 (by decide)
  have hdup := (add_user_validation vuOk vpOk aliceTab "alice" "p" "p").1 (by decide)
  have hmis := (add_user_validation vuOk vpOk aliceTab "carol" "p" "q").1 (by decide)
  exact ⟨hok.1, hok.2.2.2, hdup, hmis⟩

/-- C7: `commit` delegates to `save_changes`; when the save succeeds it
shows the "Restart needed" warning and returns `False` (not yet fully
applied); when the save fails it raises `AbortCommit` and leaves both
external stores untouched. -/
theorem commit_delegates (p : Panel) :
    ((Panel.save_changes p).1 = true →
        Panel.commit p
          = ({ (Panel.save_changes p).2 with restartWarned := true },
             Except.ok false))
    ∧ ((Panel.save_changes p).1 = false →
        (Panel.commit p).2 = Except.error AbortCommit.mk
        ∧ (Panel.commit p).1.configStore = p.configStore
        ∧ (Panel.commit p).1.userStore = p.userStore) := by
  by_cases hc : p.settings.auth = true ∧ p.users = []
  · have hsc : Panel.save_changes p
        = (false, { p with errorShown := true, currentTab := PanelTab.usersTab }) := by
      simp [Panel.save_changes, hc.1, hc.2]
    constructor
    · intro h
      simp [hsc] at h
    · intro h
      simp [Panel.commit, hsc]
  · have hcond : ¬(p.settings.auth && p.users.isEmpty) = true := by
      simp only [Bool.and_eq_true, List.isEmpty_iff]
      exact fun hx => hc ⟨hx.1, hx.2⟩
    have hsc : Panel.save_changes p
        = (true, { p with configStore := p.settings, userStore := p.users }) := by
      simp [Panel.save_changes, hcond]
    constructor
    · intro h
      simp [Panel.commit, hsc]
    · intro h
      simp [hsc] at h

/-- Witness for C7: the empty-user panel aborts, the one-user panel warns
and reports not-yet-applied. -/
theorem commit_delegates_witness :
    (Panel.commit basePanel).2 = Except.error AbortCommit.mk
    ∧ Panel.commit onePanel
        = ({ (Panel.save_changes onePanel).2 with restartWarned := true },
           Except.ok false) :=
  ⟨((commit_delegates basePanel).2 (by decide)).1,
   (commit_delegates onePanel).1 (by decide)⟩

/-- C8: `start_server` while `auth` is on and no users exist leaves the
start flag as it was (no start request is issued), switches the panel to
the user-accounts tab (showing the validation error), and persists
nothing. -/
theorem start_server_rejected_no_users (p : Panel)
    (hauth : p.settings.auth = true) (husers : p.users = []) :
    (Panel.start_server p).serverStartIssued = p.serverStartIssued
    ∧ (Panel.start_server p).currentTab = PanelTab.usersTab
    ∧ (Panel.start_server p).errorShown = true
    ∧ (Panel.start_server p).configStore = p.configStore
    ∧ (Panel.start_server p).userStore = p.userStore := by
  simp [Panel.start_server, Panel.save_changes, hauth, husers]

/-- Witness for C8 on the empty-user panel. -/
theorem start_server_rejected_no_users_witness :
    (Panel.start_server basePanel).serverStartIssued
        = basePanel.serverStartIssued
    ∧ (Panel.start_server basePanel).currentTab = PanelTab.usersTab :=
  ⟨(start_server_rejected_no_users basePanel rfl rfl).1,
   (start_server_rejected_no_users basePanel rfl rfl).2.1⟩

/-- C9 as stated is false: the username list is sorted only at genesis.
`Users.add_user` does `insertItem(0, un)`, so after adding `"bob"` to the
list `["alice"]` the displayed list is `["bob", "alice"]`, which is not in
collation order. -/
theorem user_list_order_counterexample :
    (UsersTab.addUser vuOk vpOk aliceTab "bob" "p" "p").listItems
        = ["bob", "alice"]
    ∧ ¬ (UsersTab.addUser vuOk vpOk aliceTab "bob" "p" "p").listItems.Pairwise
        (fun a b => collationLe a b = true) := by
  have hl : (UsersTab.addUser vuOk vpOk aliceTab "bob" "p" "p").listItems
      = ["bob", "alice"] := by decide
  refine ⟨hl, ?_⟩
  rw [hl]
  intro hp
  have hba := (List.pairwise_cons.mp hp).1 "alice" (by simp)
  have hfalse : collationLe "bob" "alice" = false := by decide
  rw [hfalse] at hba
  exact absurd hba (by decide)

/-- C9 amended: the username list is in collation order when the session
opens (`genesis` sorts by the collation key), but an add performed during
the session inserts the new username at the top of the list (row 0), in
front of the existing order, rather than at its collation position. -/
theorem user_list_order (keyLe : String → String → Bool)
    (htrans : ∀ a b c, keyLe a b = true → keyLe b c = true → keyLe a c = true)
    (htotal : ∀ a b, (keyLe a b || keyLe b a) = true)
    (user_data : List (String × UserRecord))
    (vu vp : String → Option String) (st : UsersTab) (uwText p1 p2 : String) :
    (usersGenesis keyLe user_data).listItems.Pairwise
        (fun a b => keyLe a b = true)
    ∧ (newUserAccept vu vp st.user_data uwText p1 p2 = AcceptOutcome.accepted →
        (UsersTab.addUser vu vp st uwText p1 p2).listItems
          = pyStrip uwText :: st.listItems) := by
  constructor
  · show (UsersTab.currentItemChanged _).listItems.Pairwise _
    exact pairwise_pySorted keyLe htrans htotal _
  · intro hacc
    simp [UsersTab.addUser, hacc, UsersTab.displayUserData]

/-- Witness for C9 (amended): the one-user tab is sorted at genesis, and
adding `"bob"` prepends it. -/
theorem user_list_order_witness :
    (usersGenesis collationLe aliceOnly).listItems.Pairwise
        (fun a b => collationLe a b = true)
    ∧ (UsersTab.addUser vuOk vpOk (usersGenesis collationLe aliceOnly)
          "bob" "p" "p").listItems
        = pyStrip "bob" :: (usersGenesis collationLe aliceOnly).listItems := by
  have h := user_list_order collationLe
    (fun a b c hab hbc => lexLe_trans hab hbc)
    (fun a b => lexLe_total a.data b.data)
    aliceOnly vuOk vpOk (usersGenesis collationLe aliceOnly) "bob" "p" "p"
  exact ⟨h.1, h.2 (by decide)⟩

/-- C10: after `current_item_changed`, the change-password control is
enabled only when the displayed username is a key of the working mapping:
a missing current item, or a current item whose text is not a key, is
normalized to no displayed user. -/
theorem selection_normalized_to_known_user (st : UsersTab) :
    ((UsersTab.currentItemChanged st).cpbEnabled = true →
        ∃ u, (UsersTab.currentItemChanged st).displayedUser = some u
          ∧ st.user_data.lookup u ≠ Option.none)
    ∧ (st.currentItem = Option.none →
        (UsersTab.currentItemChanged st).displayedUser = Option.none)
    ∧ (∀ t, st.currentItem = some t → st.user_data.lookup t = Option.none →
        (UsersTab.currentItemChanged st).displayedUser = Option.none) := by
  refine ⟨?_, ?_, ?_⟩
  · intro hen
    unfold UsersTab.currentItemChanged UsersTab.displayUserData at hen ⊢
    cases hci : st.currentItem with
    | none =>
      rw [hci] at hen
      simp at hen
    | some t =>
      by_cases hl : (st.user_data.lookup t).isSome
      · refine ⟨t, by simp [hl], ?_⟩
        intro hnone
        rw [hnone] at hl
        exact absurd hl (by decide)
      · rw [hci] at hen
        simp [hl] at hen
  · intro hci
    simp [UsersTab.currentItemChanged, UsersTab.displayUserData, hci]
  · intro t hci hl
    simp [UsersTab.currentItemChanged, UsersTab.displayUserData, hci, hl]

/-- Witness for C10: a current list item `"ghost"` that is not a key of the
mapping is normalized to no displayed user. -/
theorem selection_normalized_to_known_user_witness :
    (UsersTab.currentItemChanged ghostTab).displayedUser = Option.none :=
  (selection_normalized_to_known_user ghostTab).2.2 "ghost" (by decide) (by decide)

end CalibreServerPrefs
